import Mathlib

/-!
Shallow embedding of the G1 concurrent-mark engine core
(`src/hotspot/share/gc/g1/g1ConcurrentMark.hpp`).

Heap addresses, oops and machine words are modelled as natural numbers below
`2 ^ BitsPerWord`; region indices are natural numbers. Member functions of the
source classes become Lean functions taking the object state explicitly and
returning the result together with the updated state where the source mutates.
Bodies that live only in the corresponding `.cpp` / `.inline.hpp` files (which
are not part of this repository snapshot) are modelled from the specification
and are marked as such in their doc comments.
-/

/-- Machine word width in bits on an LP64 platform (`BitsPerWord`). -/
def BitsPerWord : Nat := 64

/-- Number of bytes in a machine word (`HeapWordSize`) on an LP64 platform. -/
def HeapWordSize : Nat := 8

/-- Container class for either an oop or a continuation address for mark stack
entries (`G1TaskQueueEntry`); the single field models the machine word
`void* _holder`. -/
structure G1TaskQueueEntry where
  holder : Nat
deriving DecidableEq

/-- Tag bit used to discriminate array-slice continuation addresses
(`G1TaskQueueEntry::ArraySliceBit = 1`). -/
def ArraySliceBit : Nat := 1

/-- Default constructor `G1TaskQueueEntry()`: the holder is `nullptr`. -/
def G1TaskQueueEntry.nullEntry : G1TaskQueueEntry := ⟨0⟩

/-- Constructor `G1TaskQueueEntry::from_slice(HeapWord* what)`: stores
`(uintptr_t)addr | ArraySliceBit`. -/
def G1TaskQueueEntry.from_slice (what : Nat) : G1TaskQueueEntry :=
  ⟨what ||| ArraySliceBit⟩

/-- Constructor `G1TaskQueueEntry::from_oop(oop obj)`: stores the oop bits
unchanged. -/
def G1TaskQueueEntry.from_oop (obj : Nat) : G1TaskQueueEntry :=
  ⟨obj⟩

/-- Predicate `G1TaskQueueEntry::is_array_slice()`:
`((uintptr_t)_holder & ArraySliceBit) != 0`. -/
def G1TaskQueueEntry.is_array_slice (e : G1TaskQueueEntry) : Bool :=
  e.holder &&& ArraySliceBit != 0

/-- Predicate `G1TaskQueueEntry::is_oop()`: `!is_array_slice()`. -/
def G1TaskQueueEntry.is_oop (e : G1TaskQueueEntry) : Bool :=
  !e.is_array_slice

/-- Predicate `G1TaskQueueEntry::is_null()`: `_holder == nullptr`. -/
def G1TaskQueueEntry.is_null (e : G1TaskQueueEntry) : Bool :=
  e.holder == 0

/-- Accessor `G1TaskQueueEntry::obj()`: `cast_to_oop(_holder)`, i.e. the holder
bits reinterpreted as an oop. The source asserts `!is_array_slice()` first;
that precondition is stated in the theorems below rather than in the value. -/
def G1TaskQueueEntry.obj (e : G1TaskQueueEntry) : Nat :=
  e.holder

/-- Accessor `G1TaskQueueEntry::slice()`:
`(HeapWord*)((uintptr_t)_holder & ~ArraySliceBit)`; on a 64-bit word the
complement `~ArraySliceBit` of the tag bit is `2 ^ BitsPerWord - 2`. -/
def G1TaskQueueEntry.slice (e : G1TaskQueueEntry) : Nat :=
  e.holder &&& (2 ^ BitsPerWord - 2)

/-- Number of task queue entries that fit in a single chunk
(`G1CMMarkStack::EntriesPerChunk = 1024 - 1`, one reference of the 1024-word
chunk being reserved for the next pointer). -/
def EntriesPerChunk : Nat := 1024 - 1

/-- A chunk of the global mark stack
(`G1CMMarkStack::TaskQueueEntryChunk`): a single `next` pointer used for
memory management plus an array of `EntriesPerChunk` task queue entries. -/
structure TaskQueueEntryChunk where
  next : Option Nat
  data : Fin EntriesPerChunk → G1TaskQueueEntry

/-- Helper `G1CMMarkStack::ChunkAllocator::find_highest_bit(uintptr_t mask)`,
computed in the source as `count_leading_zeros(mask) ^ (BitsPerWord - 1U)`.
For `mask > 0` this is the index of the highest set bit, i.e. `⌊log2 mask⌋`;
`count_leading_zeros` is a platform intrinsic outside this repository, so the
composite function is embedded directly as `Nat.log2`. -/
def find_highest_bit (mask : Nat) : Nat :=
  Nat.log2 mask

/-- State of the bucketed growable-array chunk allocator
(`G1CMMarkStack::ChunkAllocator`). The `buckets` pointer array itself holds no
information relevant to the verified claims beyond `num_buckets`, so only the
scalar fields are modelled. -/
structure ChunkAllocator where
  min_capacity : Nat
  max_capacity : Nat
  capacity : Nat
  num_buckets : Nat
  should_grow : Bool
  size : Nat
deriving DecidableEq

/-- Size in chunks of the given bucket
(`G1CMMarkStack::ChunkAllocator::bucket_size`): `_min_capacity` for bucket 0,
`_min_capacity * 2^(bucket - 1)` otherwise. -/
def ChunkAllocator.bucket_size (a : ChunkAllocator) (bucket : Nat) : Nat :=
  if bucket == 0 then a.min_capacity
  else a.min_capacity * (1 <<< (bucket - 1))

/-- Bucket holding the given flat array index
(`G1CMMarkStack::ChunkAllocator::get_bucket`): 0 when
`array_idx < _min_capacity`, else
`find_highest_bit(array_idx) - find_highest_bit(_min_capacity) + 1`. -/
def ChunkAllocator.get_bucket (a : ChunkAllocator) (array_idx : Nat) : Nat :=
  if array_idx < a.min_capacity then 0
  else find_highest_bit array_idx - find_highest_bit a.min_capacity + 1

/-- Offset within its bucket of the given flat array index
(`G1CMMarkStack::ChunkAllocator::get_bucket_index`): `array_idx` when below
`_min_capacity`, else `array_idx - (1 << find_highest_bit(array_idx))`. -/
def ChunkAllocator.get_bucket_index (a : ChunkAllocator) (array_idx : Nat) : Nat :=
  if array_idx < a.min_capacity then array_idx
  else array_idx - (1 <<< find_highest_bit array_idx)

/-- Reset of the chunk allocator (`G1CMMarkStack::ChunkAllocator::reset`):
sets `_size = 0` and `_should_grow = false`. -/
def ChunkAllocator.reset (a : ChunkAllocator) : ChunkAllocator :=
  { a with size := 0, should_grow := false }

/-- Latch `G1CMMarkStack::ChunkAllocator::set_should_grow()`: takes no
argument and sets `_should_grow = true`. -/
def ChunkAllocator.set_should_grow (a : ChunkAllocator) : ChunkAllocator :=
  { a with should_grow := true }

/-- Modelled from the spec: the body of
`G1CMMarkStack::ChunkAllocator::try_expand` is in `g1ConcurrentMark.cpp`,
which is not part of this snapshot. Per the spec, expansion doubles the
capacity (capped at `_max_capacity`) by installing one further bucket, and
fails when the maximum capacity has been reached. It never writes
`_should_grow`. -/
def ChunkAllocator.try_expand (a : ChunkAllocator) : Bool × ChunkAllocator :=
  if a.capacity < a.max_capacity then
    (true, { a with capacity := min (a.capacity * 2) a.max_capacity,
                    num_buckets := a.num_buckets + 1 })
  else (false, a)

/-- Modelled from the spec: the body of
`G1CMMarkStack::ChunkAllocator::allocate_new_chunk` is in
`g1ConcurrentMark.cpp`, which is not part of this snapshot. Per the spec, it
bump-allocates the next chunk under the high-water mark `_size`, growing the
backing array only when `_should_grow` is set and capacity remains, and
returns whether a chunk was obtained. It never writes `_should_grow`. -/
def ChunkAllocator.allocate_new_chunk (a : ChunkAllocator) : Bool × ChunkAllocator :=
  if a.size < a.capacity then
    (true, { a with size := a.size + 1 })
  else if a.should_grow then
    match a.try_expand with
    | (true, b) => (true, { b with size := b.size + 1 })
    | (false, b) => (false, b)
  else (false, a)

/-- One operation of the public mutating interface of
`G1CMMarkStack::ChunkAllocator` (`reset`, `set_should_grow`, `try_expand`,
`allocate_new_chunk`). -/
inductive AllocOp where
  | reset
  | set_should_grow
  | try_expand
  | allocate_new_chunk
deriving DecidableEq

/-- Effect of one chunk-allocator operation on the allocator state. -/
def AllocOp.apply (op : AllocOp) (a : ChunkAllocator) : ChunkAllocator :=
  match op with
  | .reset => a.reset
  | .set_should_grow => a.set_should_grow
  | .try_expand => a.try_expand.2
  | .allocate_new_chunk => a.allocate_new_chunk.2

/-- State of the global chunked mark stack (`G1CMMarkStack`). The two
intrusive singly-linked chunk lists are modelled as the multiset content that
matters to the claims: the number of chunks on the free list and the list of
data buffers on the chunk list, together with the `_chunks_in_chunk_list`
counter maintained by the source. -/
structure G1CMMarkStack where
  chunk_allocator : ChunkAllocator
  free_chunks : Nat
  chunk_list : List (List G1TaskQueueEntry)
  chunks_in_chunk_list : Nat

/-- Modelled from the spec: the body of `G1CMMarkStack::par_push_chunk` is in
`g1ConcurrentMark.cpp`, which is not part of this snapshot. Per the spec, it
acquires a chunk — popping one from the free list, else allocating the next
chunk from the bucketed allocator — copies the buffer into its data and pushes
it onto the chunk list; it returns false exactly when no chunk could be
acquired (allocation failed). -/
def G1CMMarkStack.par_push_chunk (s : G1CMMarkStack) (buffer : List G1TaskQueueEntry) :
    Bool × G1CMMarkStack :=
  if 0 < s.free_chunks then
    (true, { s with free_chunks := s.free_chunks - 1,
                    chunk_list := buffer :: s.chunk_list,
                    chunks_in_chunk_list := s.chunks_in_chunk_list + 1 })
  else
    match s.chunk_allocator.allocate_new_chunk with
    | (true, alloc) =>
      (true, { s with chunk_allocator := alloc,
                      chunk_list := buffer :: s.chunk_list,
                      chunks_in_chunk_list := s.chunks_in_chunk_list + 1 })
    | (false, alloc) => (false, { s with chunk_allocator := alloc })

/-- Emptiness test `G1CMMarkStack::is_empty()`: `_chunk_list == nullptr`. -/
def G1CMMarkStack.is_empty (s : G1CMMarkStack) : Bool :=
  s.chunk_list.isEmpty

/-- Approximate number of entries on the mark stack (`G1CMMarkStack::size()`):
`_chunks_in_chunk_list * EntriesPerChunk`. -/
def G1CMMarkStack.size (s : G1CMMarkStack) : Nat :=
  s.chunks_in_chunk_list * EntriesPerChunk

/-- Delegation `G1CMMarkStack::set_should_grow()`:
`_chunk_allocator.set_should_grow()`. -/
def G1CMMarkStack.set_should_grow (s : G1CMMarkStack) : G1CMMarkStack :=
  { s with chunk_allocator := s.chunk_allocator.set_should_grow }

/-- Per-region marking statistics entry (`G1RegionMarkStats`): the number of
live words and of incoming references found for the region. -/
structure G1RegionMarkStats where
  live_words : Nat
  incoming_refs : Nat
deriving DecidableEq

/-- Result of `G1ConcurrentMark::claim_region`: either a claimed non-empty
region, a null return with the instruction to call `claim_region` again
(the skipped region was empty), or a null return meaning the heap is
exhausted (`out_of_regions()` holds). -/
inductive ClaimResult where
  | claimed (region : Nat)
  | retry
  | exhausted
deriving DecidableEq

/-- State of the marking coordinator (`G1ConcurrentMark`) restricted to the
fields the verified claims touch: the heap bounds `[heap_start, heap_end)`
(`MemRegion _heap`), the region size of the heap layout collaborator, the
marking bitmap `_mark_bitmap` (one boolean per heap address), the global
finger `_finger`, the overflow flag `_has_overflown`, the global mark stack
`_global_mark_stack`, the per-region statistics `_region_mark_stats` and the
per-region `_top_at_mark_starts` array. -/
structure G1ConcurrentMark where
  heap_start : Nat
  heap_end : Nat
  region_size : Nat
  mark_bitmap : Nat → Bool
  finger : Nat
  has_overflown : Bool
  global_mark_stack : G1CMMarkStack
  region_mark_stats : Nat → G1RegionMarkStats
  top_at_mark_starts : Nat → Nat

/-- Region index covering the given address, provided by the heap layout
collaborator (`region_index(addr)` in the spec's external interfaces):
constant-time arithmetic on the region-partitioned heap. -/
def G1ConcurrentMark.region_of (cm : G1ConcurrentMark) (addr : Nat) : Nat :=
  (addr - cm.heap_start) / cm.region_size

/-- Bottom address of the given region, provided by the heap layout
collaborator (`region_bottom(idx)` in the spec's external interfaces). -/
def G1ConcurrentMark.region_bottom (cm : G1ConcurrentMark) (region : Nat) : Nat :=
  cm.heap_start + region * cm.region_size

/-- Accessor `G1ConcurrentMark::top_at_mark_start(uint region)`; the trivial
inline body (`_top_at_mark_starts[region]`) lives in
`g1ConcurrentMark.inline.hpp`, outside this snapshot, and is modelled from the
spec as the read of the per-region TAMS array. -/
def G1ConcurrentMark.top_at_mark_start (cm : G1ConcurrentMark) (region : Nat) : Nat :=
  cm.top_at_mark_starts region

/-- Exhaustion test `G1ConcurrentMark::out_of_regions()`:
`_finger >= _heap.end()`. -/
def G1ConcurrentMark.out_of_regions (cm : G1ConcurrentMark) : Bool :=
  decide (cm.finger ≥ cm.heap_end)

/-- Setter `G1ConcurrentMark::set_has_overflown()`: `_has_overflown = true`. -/
def G1ConcurrentMark.set_has_overflown (cm : G1ConcurrentMark) : G1ConcurrentMark :=
  { cm with has_overflown := true }

/-- Wrapper `G1ConcurrentMark::mark_stack_push(G1TaskQueueEntry* arr)`: if
`_global_mark_stack.par_push_chunk(arr)` fails, calls `set_has_overflown()`
and returns false; otherwise returns true. -/
def G1ConcurrentMark.mark_stack_push (cm : G1ConcurrentMark)
    (arr : List G1TaskQueueEntry) : Bool × G1ConcurrentMark :=
  match cm.global_mark_stack.par_push_chunk arr with
  | (false, st) => (false, ({ cm with global_mark_stack := st }).set_has_overflown)
  | (true, st) => (true, { cm with global_mark_stack := st })

/-- Accessor `G1ConcurrentMark::live_bytes(uint region)`:
`_region_mark_stats[region]._live_words * HeapWordSize`. -/
def G1ConcurrentMark.live_bytes (cm : G1ConcurrentMark) (region : Nat) : Nat :=
  (cm.region_mark_stats region).live_words * HeapWordSize

/-- Setter `G1ConcurrentMark::set_live_bytes(uint region, size_t live_bytes)`:
`_region_mark_stats[region]._live_words = live_bytes / HeapWordSize`. -/
def G1ConcurrentMark.set_live_bytes (cm : G1ConcurrentMark) (region lb : Nat) :
    G1ConcurrentMark :=
  { cm with region_mark_stats := fun r =>
      if r = region then
        { cm.region_mark_stats r with live_words := lb / HeapWordSize }
      else cm.region_mark_stats r }

/-- Modelled from the spec: the body of
`G1ConcurrentMark::mark_in_bitmap(uint worker_id, oop obj)` is in
`g1ConcurrentMark.inline.hpp`, which is not part of this snapshot. Per the
spec and the header documentation ("Mark the given object on the marking
bitmap if it is below TAMS"), the object is marked only when its address is
strictly below its region's TAMS; the mark itself is the bitmap's atomic
`try_mark`, whose result is true exactly on a 0 → 1 transition of the bit.
The `worker_id` is used only for statistics caching and does not affect the
bitmap. -/
def G1ConcurrentMark.mark_in_bitmap (cm : G1ConcurrentMark)
    (worker_id obj : Nat) : Bool × G1ConcurrentMark :=
  if cm.top_at_mark_start (cm.region_of obj) ≤ obj then
    (false, cm)
  else if cm.mark_bitmap obj then
    (false, cm)
  else
    (true, { cm with mark_bitmap := fun a => if a = obj then true else cm.mark_bitmap a })

/-- Modelled from the spec: the body of
`G1ConcurrentMark::claim_region(uint worker_id)` is in
`g1ConcurrentMark.cpp`, which is not part of this snapshot. Per the spec and
the header documentation, it returns null permanent exhaustion only when
`_finger >= _heap.end()`; otherwise it advances the finger by one region
stride and either returns the claimed region or — when the skipped region is
empty, i.e. its bottom equals its TAMS — returns null with the instruction
that the caller should call `claim_region` again. -/
def G1ConcurrentMark.claim_region (cm : G1ConcurrentMark) (worker_id : Nat) :
    ClaimResult × G1ConcurrentMark :=
  if cm.finger ≥ cm.heap_end then
    (ClaimResult.exhausted, cm)
  else if cm.region_bottom (cm.region_of cm.finger) =
      cm.top_at_mark_start (cm.region_of cm.finger) then
    (ClaimResult.retry, { cm with finger := cm.finger + cm.region_size })
  else
    (ClaimResult.claimed (cm.region_of cm.finger),
      { cm with finger := cm.finger + cm.region_size })

/-- Invariant of §4.1 of the spec (marking precision): every bit set in the
marking bitmap belongs to an address strictly below its region's TAMS. -/
def G1ConcurrentMark.marking_precise (cm : G1ConcurrentMark) : Prop :=
  ∀ addr : Nat, cm.mark_bitmap addr = true →
    addr < cm.top_at_mark_start (cm.region_of addr)

/-- Scan period constant `G1CMTask::words_scanned_period = 12*1024`: the
regular clock call is made once the scanned words reach this limit. -/
def words_scanned_period : Nat := 12 * 1024

/-- Scan period constant `G1CMTask::refs_reached_period = 1024`: the regular
clock call is made once the number of visited references reaches this
limit. -/
def refs_reached_period : Nat := 1024

/-- State of a marking task (`G1CMTask`) restricted to the scan-budget fields
the verified claims touch. -/
structure G1CMTask where
  words_scanned : Nat
  words_scanned_limit : Nat
  real_words_scanned_limit : Nat
  refs_reached : Nat
  refs_reached_limit : Nat
  real_refs_reached_limit : Nat
deriving DecidableEq

/-- Budget check `G1CMTask::check_limits()`: invokes `reached_limit()` when
`_words_scanned >= _words_scanned_limit || _refs_reached >=
_refs_reached_limit`. The returned boolean records whether `reached_limit()`
was invoked (its body lives outside this header and performs no observable
state change relevant to the claims before `recalculate_limits`). -/
def G1CMTask.check_limits (t : G1CMTask) : Bool :=
  decide (t.words_scanned ≥ t.words_scanned_limit) ||
    decide (t.refs_reached ≥ t.refs_reached_limit)

/-- Modelled from the spec: the bodies of `G1CMTask::reset` and
`G1CMTask::recalculate_limits` are in `g1ConcurrentMark.cpp`, which is not
part of this snapshot. Per the spec, the initial scan limits are
`words_scanned_period` words and `refs_reached_period` refs, and
`recalculate_limits` restores them after a successful clock pass. -/
def G1CMTask.recalculate_limits (t : G1CMTask) : G1CMTask :=
  { t with words_scanned_limit := words_scanned_period,
           real_words_scanned_limit := words_scanned_period,
           refs_reached_limit := refs_reached_period,
           real_refs_reached_limit := refs_reached_period }

/-! Concrete states used by the witness theorems to evaluate the definitions
on explicit inputs. -/

/-- A concrete chunk allocator with room to grow (capacity 4 of 16, growth
latched on, 4 chunks handed out). -/
def allocatorA : ChunkAllocator :=
  { min_capacity := 4, max_capacity := 16, capacity := 4, num_buckets := 1,
    should_grow := true, size := 4 }

/-- A concrete exhausted chunk allocator: all capacity handed out, maximum
capacity reached and growth disabled, so the next allocation must fail. -/
def allocatorB : ChunkAllocator :=
  { min_capacity := 1, max_capacity := 1, capacity := 1, num_buckets := 1,
    should_grow := false, size := 1 }

/-- A concrete mark stack whose next push must fail: the free list is empty
and the allocator is exhausted. -/
def stackB : G1CMMarkStack :=
  { chunk_allocator := allocatorB, free_chunks := 0, chunk_list := [],
    chunks_in_chunk_list := 0 }

/-- A concrete coordinator state over the heap `[0, 32)` split into two
16-word regions: region 0 has TAMS 8 (non-empty), region 1 has TAMS equal to
its bottom 16 (empty); nothing is marked, the finger is at 0, and the global
mark stack is `stackB`. -/
def cmB : G1ConcurrentMark :=
  { heap_start := 0, heap_end := 32, region_size := 16,
    mark_bitmap := fun _ => false, finger := 0, has_overflown := false,
    global_mark_stack := stackB, region_mark_stats := fun _ => ⟨0, 0⟩,
    top_at_mark_starts := fun r => if r = 0 then 8 else 16 }

/-- The coordinator state `cmB` with the finger advanced to the empty
region 1. -/
def cmC : G1ConcurrentMark :=
  { cmB with finger := 16 }

/-- Helper: the bitwise or of an even number with 1 is its successor. -/
theorem even_lor_one (a : Nat) (h : a % 2 = 0) : a ||| 1 = a + 1 := by
  apply Nat.eq_of_testBit_eq
  intro i
  cases i with
  | zero =>
    simp [Nat.testBit_or, Nat.testBit_zero]
    omega
  | succ n =>
    simp only [Nat.testBit_succ]
    have h1 : (a ||| 1) / 2 = a / 2 := by
      rw [Nat.or_div_two]
      norm_num
    have h2 : (a + 1) / 2 = a / 2 := by omega
    rw [h1, h2]

/-- Helper: masking the successor of an even 64-bit number with the word-sized
complement of 1 recovers the number (clearing the tag bit undoes tagging). -/
theorem succ_and_mask (a : Nat) (ha : a < 2 ^ 64) (h : a % 2 = 0) :
    (a + 1) &&& (2 ^ 64 - 2) = a := by
  apply Nat.eq_of_testBit_eq
  intro i
  rw [Nat.testBit_and]
  cases i with
  | zero =>
    simp [Nat.testBit_zero]
    omega
  | succ n =>
    simp only [Nat.testBit_succ]
    have hmask : (2 ^ 64 - 2) / 2 = 2 ^ 63 - 1 := by norm_num
    have h2 : (a + 1) / 2 = a / 2 := by omega
    rw [hmask, h2, Nat.testBit_two_pow_sub_one]
    by_cases hn : n < 63
    · simp [hn]
    · have hlt : a / 2 < 2 ^ n := by
        calc a / 2 < 2 ^ 63 := by omega
        _ ≤ 2 ^ n := Nat.pow_le_pow_right (by norm_num) (by omega)
      simp [Nat.testBit_lt_two_pow hlt, hn]

/-- Claim C9: a default-constructed (empty-slot) `G1TaskQueueEntry` has
`is_null()` true, `is_array_slice()` false and `is_oop()` true — the null
sentinel is classified as an object reference by the tag predicate — and
calling `obj()` on it passes the non-slice assertion (`is_array_slice()` is
false) and returns the null oop. -/
theorem null_entry_classified_as_oop :
    G1TaskQueueEntry.nullEntry.is_null = true ∧
    G1TaskQueueEntry.nullEntry.is_array_slice = false ∧
    G1TaskQueueEntry.nullEntry.is_oop = true ∧
    G1TaskQueueEntry.nullEntry.obj = 0 := by
  decide

/-- Claim C7: a mark-stack chunk consists of one next pointer plus an array of
exactly 1023 task-queue entries (`EntriesPerChunk = 1023`, the index type of a
chunk's data array has exactly 1023 elements), and the stack's `size()`
reports `_chunks_in_chunk_list * 1023` entries. -/
theorem mark_stack_chunk_geometry (s : G1CMMarkStack) :
    EntriesPerChunk = 1023 ∧
    Fintype.card (Fin EntriesPerChunk) = 1023 ∧
    s.size = s.chunks_in_chunk_list * 1023 := by
  refine ⟨rfl, by rw [Fintype.card_fin]; rfl, rfl⟩

/-- Claim C6: the initial (and restored) scan limits are exactly 12288 words
(`words_scanned_period`) and 1024 references (`refs_reached_period`), and
`check_limits()` invokes `reached_limit()` if and only if `_words_scanned` has
reached `_words_scanned_limit` or `_refs_reached` has reached
`_refs_reached_limit`. -/
theorem check_limits_trigger_and_periods (t : G1CMTask) :
    words_scanned_period = 12288 ∧
    refs_reached_period = 1024 ∧
    t.recalculate_limits.words_scanned_limit = 12288 ∧
    t.recalculate_limits.refs_reached_limit = 1024 ∧
    (t.check_limits = true ↔
      t.words_scanned ≥ t.words_scanned_limit ∨
        t.refs_reached ≥ t.refs_reached_limit) := by
  refine ⟨rfl, rfl, rfl, rfl, ?_⟩
  simp [G1CMTask.check_limits]

/-- Claim C8: for every region index, `live_bytes` returns the region's
recorded `_live_words` multiplied by `HeapWordSize`, and `set_live_bytes`
followed by `live_bytes` returns the set value for every multiple of the word
size. -/
theorem live_bytes_words_roundtrip (cm : G1ConcurrentMark) (region lb : Nat)
    (h : HeapWordSize ∣ lb) :
    cm.live_bytes region = (cm.region_mark_stats region).live_words * HeapWordSize ∧
    (cm.set_live_bytes region lb).live_bytes region = lb := by
  constructor
  · rfl
  · simp only [G1ConcurrentMark.live_bytes, G1ConcurrentMark.set_live_bytes, if_pos rfl]
    exact Nat.div_mul_cancel h

/-- Witness for claim C8 at a concrete state: storing 16 bytes (a multiple of
the 8-byte word size) into region 0 of `cmB` and reading the live bytes back
returns 16. -/
theorem live_bytes_words_roundtrip_witness :
    HeapWordSize ∣ 16 ∧ (cmB.set_live_bytes 0 16).live_bytes 0 = 16 :=
  ⟨by decide, (live_bytes_words_roundtrip cmB 0 16 (by decide)).2⟩

/-- Claim C2: `mark_stack_push(arr)` returns true if and only if the
underlying `G1CMMarkStack::par_push_chunk(arr)` succeeds; whenever it returns
false it sets the global overflow flag `_has_overflown` to true before
returning, and whenever it returns true `_has_overflown` is left unchanged. -/
theorem mark_stack_push_overflow_flag (cm : G1ConcurrentMark)
    (arr : List G1TaskQueueEntry) :
    (cm.mark_stack_push arr).1 = (cm.global_mark_stack.par_push_chunk arr).1 ∧
    ((cm.mark_stack_push arr).1 = false →
      (cm.mark_stack_push arr).2.has_overflown = true) ∧
    ((cm.mark_stack_push arr).1 = true →
      (cm.mark_stack_push arr).2.has_overflown = cm.has_overflown) := by
  unfold G1ConcurrentMark.mark_stack_push
  rcases h : cm.global_mark_stack.par_push_chunk arr with ⟨ok, st⟩
  cases ok <;> simp [G1ConcurrentMark.set_has_overflown]

/-- Witness for claim C2 at a concrete state: pushing onto `cmB`, whose global
mark stack is exhausted, fails and sets the overflow flag. -/
theorem mark_stack_push_overflow_flag_witness :
    (cmB.mark_stack_push []).1 = false ∧
    (cmB.mark_stack_push []).2.has_overflown = true :=
  ⟨by decide, (mark_stack_push_overflow_flag cmB []).2.1 (by decide)⟩

/-- Helper: expansion never changes the grow-on-overflow policy flag. -/
theorem try_expand_keeps_should_grow (a : ChunkAllocator) :
    a.try_expand.2.should_grow = a.should_grow := by
  unfold ChunkAllocator.try_expand
  split <;> rfl

/-- Helper: chunk allocation never changes the grow-on-overflow policy flag. -/
theorem allocate_new_chunk_keeps_should_grow (a : ChunkAllocator) :
    a.allocate_new_chunk.2.should_grow = a.should_grow := by
  unfold ChunkAllocator.allocate_new_chunk
  split
  · rfl
  · split
    · have hkeep := try_expand_keeps_should_grow a
      rcases h : a.try_expand with ⟨ok, b⟩
      rw [h] at hkeep
      cases ok <;> exact hkeep
    · rfl

/-- Claim C10: `ChunkAllocator::reset()` sets `_size` to 0 and `_should_grow`
to false, `set_should_grow()` takes no argument and only latches
`_should_grow` to true, and no operation of the allocator interface other
than `reset` clears the policy: whenever the flag goes from true to false,
the operation applied was `reset`. -/
theorem should_grow_cleared_only_by_reset (a b : ChunkAllocator) (op : AllocOp)
    (hb : b.should_grow = true) (hop : (op.apply b).should_grow = false) :
    a.reset.size = 0 ∧ a.reset.should_grow = false ∧
    a.set_should_grow.should_grow = true ∧ op = AllocOp.reset := by
  refine ⟨rfl, rfl, rfl, ?_⟩
  cases op with
  | reset => rfl
  | set_should_grow =>
    simp [AllocOp.apply, ChunkAllocator.set_should_grow] at hop
  | try_expand =>
    rw [AllocOp.apply, try_expand_keeps_should_grow, hb] at hop
    exact absurd hop (by simp)
  | allocate_new_chunk =>
    rw [AllocOp.apply, allocate_new_chunk_keeps_should_grow, hb] at hop
    exact absurd hop (by simp)

/-- Witness for claim C10 at concrete states: resetting `allocatorB` zeroes
the size and disables growth, latching `allocatorA` enables it, and the
operation that cleared the latched flag of `allocatorA` is `reset`. -/
theorem should_grow_cleared_only_by_reset_witness :
    allocatorB.reset.size = 0 ∧ allocatorB.reset.should_grow = false ∧
    allocatorB.set_should_grow.should_grow = true ∧
    AllocOp.reset = AllocOp.reset :=
  should_grow_cleared_only_by_reset allocatorB allocatorA AllocOp.reset
    (by decide) (by decide)

/-- Claim C1: marking precision. If every bit set in the marking bitmap lies
strictly below its region's TAMS, then after `mark_in_bitmap(worker_id, obj)`
this still holds — the engine never sets a bit for an address at or above its
region's TAMS — and the call reports a mark only if `obj` is strictly below
`top_at_mark_start` of its region. -/
theorem mark_in_bitmap_precision (cm : G1ConcurrentMark) (worker_id obj : Nat)
    (h : cm.marking_precise) :
    ((cm.mark_in_bitmap worker_id obj).1 = true →
      obj < cm.top_at_mark_start (cm.region_of obj)) ∧
    (cm.mark_in_bitmap worker_id obj).2.marking_precise := by
  unfold G1ConcurrentMark.mark_in_bitmap
  split
  · exact ⟨by simp, h⟩
  · split
    · exact ⟨by simp, h⟩
    · rename_i htams hunmarked
      constructor
      · intro _
        omega
      · intro addr haddr
        simp only [G1ConcurrentMark.marking_precise, G1ConcurrentMark.top_at_mark_start,
          G1ConcurrentMark.region_of] at *
        by_cases heq : addr = obj
        · subst heq
          omega
        · simp only [heq, if_false] at haddr
          exact h addr haddr

/-- Witness for claim C1 at a concrete state: the all-clear bitmap of `cmB`
is precise, and marking address 3 (below the TAMS 8 of region 0) preserves
precision and reports the address below TAMS. -/
theorem mark_in_bitmap_precision_witness :
    cmB.marking_precise ∧
    ((cmB.mark_in_bitmap 0 3).1 = true →
      3 < cmB.top_at_mark_start (cmB.region_of 3)) ∧
    (cmB.mark_in_bitmap 0 3).2.marking_precise := by
  have h : cmB.marking_precise := by
    intro addr ha
    simp [cmB] at ha
  exact ⟨h, (mark_in_bitmap_precision cmB 0 3 h).1,
    (mark_in_bitmap_precision cmB 0 3 h).2⟩

/-- Claim C5: region exhaustion is exactly finger-past-end. `out_of_regions()`
returns true if and only if the global finger is at or above the heap end
address; `claim_region(worker_id)` reports permanent exhaustion if and only
if that condition holds; and a null return with the finger still below heap
end means the skipped region was empty (its bottom equals its TAMS) and the
caller should call `claim_region` again. -/
theorem claim_region_exhaustion_spec (cm : G1ConcurrentMark) (worker_id : Nat) :
    (cm.out_of_regions = true ↔ cm.finger ≥ cm.heap_end) ∧
    ((cm.claim_region worker_id).1 = ClaimResult.exhausted ↔
      cm.finger ≥ cm.heap_end) ∧
    ((cm.claim_region worker_id).1 = ClaimResult.retry →
      cm.finger < cm.heap_end ∧
      cm.region_bottom (cm.region_of cm.finger) =
        cm.top_at_mark_start (cm.region_of cm.finger)) := by
  unfold G1ConcurrentMark.out_of_regions G1ConcurrentMark.claim_region
  refine ⟨by simp, ?_, ?_⟩
  · split
    · rename_i hge
      simp [hge]
    · rename_i hlt
      split <;> simp [hlt]
  · split
    · simp
    · rename_i hlt
      split
      · rename_i hempty
        intro _
        exact ⟨by omega, hempty⟩
      · simp

/-- Witness for claim C5 at a concrete state: in `cmC` the finger (16) is
below the heap end (32) and `claim_region` returns the retry instruction, so
the skipped region 1 is indeed empty (bottom 16 equals TAMS 16). -/
theorem claim_region_exhaustion_spec_witness :
    cmC.finger < cmC.heap_end ∧
    cmC.region_bottom (cmC.region_of cmC.finger) =
      cmC.top_at_mark_start (cmC.region_of cmC.finger) :=
  (claim_region_exhaustion_spec cmC 0).2.2 (by decide)

/-- Claim C4: task-queue entry tagging round-trips. For every 2-byte-aligned
64-bit heap address, `from_slice` yields an entry with `is_array_slice()`
true, `is_oop()` false and `slice()` returning the address unchanged; for
every non-null aligned object reference, `from_oop` yields an entry with
`is_oop()` true, `is_array_slice()` false and `obj()` returning the
reference; and no entry is classified as both an object reference and an
array slice. -/
theorem task_queue_entry_tagging (a o : Nat)
    (ha2 : a % 2 = 0) (ha : a < 2 ^ BitsPerWord)
    (ho2 : o % 2 = 0) (ho0 : o ≠ 0) :
    ((G1TaskQueueEntry.from_slice a).is_array_slice = true ∧
      (G1TaskQueueEntry.from_slice a).is_oop = false ∧
      (G1TaskQueueEntry.from_slice a).slice = a) ∧
    ((G1TaskQueueEntry.from_oop o).is_oop = true ∧
      (G1TaskQueueEntry.from_oop o).is_array_slice = false ∧
      (G1TaskQueueEntry.from_oop o).obj = o) ∧
    (∀ e : G1TaskQueueEntry, ¬(e.is_oop = true ∧ e.is_array_slice = true)) := by
  have hb : BitsPerWord = 64 := rfl
  rw [hb] at ha
  have hslice_holder : (G1TaskQueueEntry.from_slice a).holder = a + 1 := by
    simp only [G1TaskQueueEntry.from_slice, ArraySliceBit]
    exact even_lor_one a ha2
  refine ⟨⟨?_, ?_, ?_⟩, ⟨?_, ?_, rfl⟩, ?_⟩
  · simp only [G1TaskQueueEntry.is_array_slice, hslice_holder, ArraySliceBit,
      Nat.and_one_is_mod]
    have : (a + 1) % 2 = 1 := by omega
    simp [this]
  · simp only [G1TaskQueueEntry.is_oop, G1TaskQueueEntry.is_array_slice,
      hslice_holder, ArraySliceBit, Nat.and_one_is_mod]
    have : (a + 1) % 2 = 1 := by omega
    simp [this]
  · simp only [G1TaskQueueEntry.slice, hslice_holder, hb]
    exact succ_and_mask a ha ha2
  · simp only [G1TaskQueueEntry.is_oop, G1TaskQueueEntry.is_array_slice,
      G1TaskQueueEntry.from_oop, ArraySliceBit, Nat.and_one_is_mod, ho2]
    simp
  · simp only [G1TaskQueueEntry.is_array_slice, G1TaskQueueEntry.from_oop,
      ArraySliceBit, Nat.and_one_is_mod, ho2]
    simp
  · intro e he
    rcases he with ⟨h1, h2⟩
    simp only [G1TaskQueueEntry.is_oop, h2] at h1
    exact absurd h1 (by simp)

/-- Witness for claim C4 at concrete inputs: tagging the aligned address 6 as
a slice round-trips and tagging the non-null aligned reference 8 as an oop is
classified as an object reference. -/
theorem task_queue_entry_tagging_witness :
    (G1TaskQueueEntry.from_slice 6).is_array_slice = true ∧
    (G1TaskQueueEntry.from_slice 6).slice = 6 ∧
    (G1TaskQueueEntry.from_oop 8).is_oop = true :=
  ⟨(task_queue_entry_tagging 6 8 (by decide) (by norm_num [BitsPerWord]) (by decide)
      (by decide)).1.1,
   (task_queue_entry_tagging 6 8 (by decide) (by norm_num [BitsPerWord]) (by decide)
      (by decide)).1.2.2,
   (task_queue_entry_tagging 6 8 (by decide) (by norm_num [BitsPerWord]) (by decide)
      (by decide)).2.1.1⟩

/-- Claim C3: bucketed chunk-allocator index math. For a power-of-two minimum
capacity, `get_bucket` returns 0 below the minimum capacity and
`⌊log2 idx⌋ - ⌊log2 min_capacity⌋ + 1` otherwise; `get_bucket_index` returns
`idx` below the minimum capacity and `idx - 2 ^ ⌊log2 idx⌋` otherwise; the
pair places `idx` in bucket `k ≥ 1` exactly for the index interval
`[min_capacity * 2^(k-1), min_capacity * 2^k)` and in bucket 0 exactly for
`[0, min_capacity)`, with the returned offset always strictly below
`bucket_size` of the computed bucket. -/
theorem chunk_allocator_bucket_math (a : ChunkAllocator) (j idx k : Nat)
    (hm : a.min_capacity = 2 ^ j) :
    (idx < a.min_capacity →
      a.get_bucket idx = 0 ∧ a.get_bucket_index idx = idx) ∧
    (a.min_capacity ≤ idx →
      a.get_bucket idx = Nat.log2 idx - Nat.log2 a.min_capacity + 1 ∧
      a.get_bucket_index idx = idx - 2 ^ Nat.log2 idx) ∧
    (a.get_bucket idx = 0 ↔ idx < a.min_capacity) ∧
    (1 ≤ k →
      (a.get_bucket idx = k ↔
        a.min_capacity * 2 ^ (k - 1) ≤ idx ∧ idx < a.min_capacity * 2 ^ k)) ∧
    a.get_bucket_index idx < a.bucket_size (a.get_bucket idx) := by
  have hj : Nat.log2 (2 ^ j) = j := by
    rw [Nat.log2_eq_log_two]
    exact Nat.log_pow (by norm_num) j
  by_cases hcase : idx < a.min_capacity
  · have hb : a.get_bucket idx = 0 := by
      simp [ChunkAllocator.get_bucket, hcase]
    have hbi : a.get_bucket_index idx = idx := by
      simp [ChunkAllocator.get_bucket_index, hcase]
    refine ⟨fun _ => ⟨hb, hbi⟩, fun h => absurd h (by omega), ?_, ?_, ?_⟩
    · rw [hb]
      simp [hcase]
    · intro hk
      rw [hb]
      constructor
      · intro h0
        exact absurd h0 (by omega)
      · rintro ⟨h1, _⟩
        exfalso
        have h2p : (1:Nat) ≤ 2 ^ (k - 1) := Nat.one_le_two_pow
        have hge : a.min_capacity ≤ a.min_capacity * 2 ^ (k - 1) := by
          calc a.min_capacity = a.min_capacity * 1 := (mul_one _).symm
          _ ≤ a.min_capacity * 2 ^ (k - 1) := Nat.mul_le_mul (le_refl _) h2p
        exact lt_irrefl _ (lt_of_le_of_lt (le_trans hge h1) hcase)
    · rw [hb, hbi]
      simpa [ChunkAllocator.bucket_size] using hcase
  · push_neg at hcase
    have hmpos : 0 < a.min_capacity := by
      rw [hm]
      exact Nat.pos_pow_of_pos _ (by norm_num)
    have hidx0 : idx ≠ 0 := by omega
    have hL1 : 2 ^ Nat.log2 idx ≤ idx := Nat.log2_self_le hidx0
    have hL2 : idx < 2 ^ (Nat.log2 idx + 1) := Nat.lt_log2_self
    have hjL : j ≤ Nat.log2 idx := by
      rw [Nat.log2_eq_log_two]
      calc j = Nat.log 2 (2 ^ j) := (Nat.log_pow (by norm_num) j).symm
      _ ≤ Nat.log 2 idx := Nat.log_mono_right (by omega)
    have hb : a.get_bucket idx = Nat.log2 idx - j + 1 := by
      unfold ChunkAllocator.get_bucket
      rw [if_neg (by omega), hm]
      unfold find_highest_bit
      rw [hj]
    have hbi : a.get_bucket_index idx = idx - 2 ^ Nat.log2 idx := by
      unfold ChunkAllocator.get_bucket_index
      rw [if_neg (by omega)]
      unfold find_highest_bit
      rw [Nat.one_shiftLeft]
    refine ⟨fun h => absurd h (by omega), fun _ => ⟨by rw [hb, hm, hj], hbi⟩,
      by rw [hb]; omega, ?_, ?_⟩
    · intro hk
      rw [hb]
      constructor
      · intro h
        have hLval : Nat.log2 idx = j + k - 1 := by omega
        have e1 : a.min_capacity * 2 ^ (k - 1) = 2 ^ Nat.log2 idx := by
          rw [hm, ← pow_add]
          congr 1
          omega
        have e2 : a.min_capacity * 2 ^ k = 2 ^ (Nat.log2 idx + 1) := by
          rw [hm, ← pow_add]
          congr 1
          omega
        exact ⟨by rw [e1]; exact hL1, by rw [e2]; exact hL2⟩
      · rintro ⟨h1, h2⟩
        have e1 : a.min_capacity * 2 ^ (k - 1) = 2 ^ (j + k - 1) := by
          rw [hm, ← pow_add]
          congr 1
          omega
        have e2 : a.min_capacity * 2 ^ k = 2 ^ ((j + k - 1) + 1) := by
          rw [hm, ← pow_add]
          congr 1
          omega
        have hlog : Nat.log 2 idx = j + k - 1 :=
          Nat.log_eq_of_pow_le_of_lt_pow (by rw [← e1]; exact h1)
            (by rw [← e2]; exact h2)
        have hlog2 : Nat.log2 idx = j + k - 1 := by
          rw [Nat.log2_eq_log_two]
          exact hlog
        omega
    · rw [hb, hbi]
      have hbs : a.bucket_size (Nat.log2 idx - j + 1) = 2 ^ Nat.log2 idx := by
        unfold ChunkAllocator.bucket_size
        rw [if_neg (by simp), Nat.one_shiftLeft, hm, ← pow_add]
        congr 1
        omega
      rw [hbs]
      have hp : (2:Nat) ^ (Nat.log2 idx + 1) = 2 ^ Nat.log2 idx * 2 :=
        pow_succ 2 _
      omega

/-- Witness for claim C3 at concrete inputs: with minimum capacity 4 = 2^2,
index 10 falls in bucket 2 = ⌊log2 10⌋ - ⌊log2 4⌋ + 1, exactly the interval
`[4*2, 4*4)`, and the offset is below the bucket size. -/
theorem chunk_allocator_bucket_math_witness :
    allocatorA.min_capacity = 2 ^ 2 ∧
    (allocatorA.get_bucket 10 = 2 ↔
      allocatorA.min_capacity * 2 ^ 1 ≤ 10 ∧ 10 < allocatorA.min_capacity * 2 ^ 2) ∧
    allocatorA.get_bucket_index 10 < allocatorA.bucket_size (allocatorA.get_bucket 10) :=
  ⟨by decide,
   (chunk_allocator_bucket_math allocatorA 2 10 2 (by decide)).2.2.2.1 (by decide),
   (chunk_allocator_bucket_math allocatorA 2 10 2 (by decide)).2.2.2.2⟩
